import Mathlib

/-!
Shallow embedding of the `define_factory!` test-fixture factory generator
(src/src/lib.rs) and of the two factory families it stamps out in the test
suite: the `specialty` entity (four static fields, no lazy fields) and the
`doctor` entity (seven static fields plus one lazy field, `specialty_id`,
resolved by `get_specialty_id`).

The external Store collaborator (sea-orm `DatabaseConnection` backed by an
in-memory SQLite database in the tests) is modelled as an explicit `Db`
state: an `insert` either fails with the store's pending error or appends
the row, assigning the next auto-increment identifier when the primary key
is unset.  Ambient randomness (`Uuid::new_v4`) is modelled as an explicit
`Rng` state threaded through every operation that draws a fresh uuid, with
a fresh uuid never repeating an earlier one.  `async` functions become
state-passing functions returning `Except DbErr _ × Rng × Db` (the `?`
operator becomes an early return carrying the store state reached so far),
and the `expect` panic in `build` becomes an `Option` result.
-/

/-- Model of a v4 uuid value: an abstract token drawn from the generator. -/
abbrev Uuid := Nat

/-- Generator state for `Uuid::new_v4`: a counter that never repeats. -/
structure Rng where
  counter : Nat
deriving Repr, DecidableEq

/-- `Uuid::new_v4()`: draw a fresh uuid, advancing the generator. -/
def Uuid.new_v4 (r : Rng) : Uuid × Rng :=
  (r.counter, ⟨r.counter + 1⟩)

/-- Model of `sea_orm::DbErr`: an error value carrying a message. -/
structure DbErr where
  msg : String
deriving Repr, DecidableEq

/-- Model of `sea_orm::ActiveValue`: a column value that is either set or
left unset (the `Default` used by `..Default::default()` is `notSet`). -/
inductive ActiveValue (α : Type) where
  | set : α → ActiveValue α
  | notSet : ActiveValue α
deriving Repr, DecidableEq

namespace Specialty

/-- The persisted `specialties::Model` row. -/
structure Model where
  id : Int
  uuid : Uuid
  name : String
  description : Option String
  is_active : Bool
deriving Repr, DecidableEq

/-- The pre-insert `specialties::ActiveModel`. -/
structure ActiveModel where
  id : ActiveValue Int
  uuid : ActiveValue Uuid
  name : ActiveValue String
  description : ActiveValue (Option String)
  is_active : ActiveValue Bool
deriving Repr, DecidableEq

end Specialty

namespace Doctor

/-- The persisted `doctors::Model` row. -/
structure Model where
  id : Int
  uuid : Uuid
  first_name : String
  last_name : String
  email : String
  specialty_id : Int
  license_number : String
  phone : Option String
  is_active : Bool
deriving Repr, DecidableEq

/-- The pre-insert `doctors::ActiveModel`. -/
structure ActiveModel where
  id : ActiveValue Int
  uuid : ActiveValue Uuid
  first_name : ActiveValue String
  last_name : ActiveValue String
  email : ActiveValue String
  specialty_id : ActiveValue Int
  license_number : ActiveValue String
  phone : ActiveValue (Option String)
  is_active : ActiveValue Bool
deriving Repr, DecidableEq

end Doctor

/-- Model of the external Store collaborator (spec section 6): the tables the
test schema creates, the auto-increment counters SQLite maintains for the
primary keys, and a pending failure (`some e` makes the next inserts fail
with `e`, modelling connectivity loss or constraint violation; `none` means
the store accepts inserts). -/
structure Db where
  specialties : List Specialty.Model
  doctors : List Doctor.Model
  nextSpecialtyId : Int
  nextDoctorId : Int
  failure : Option DbErr
deriving Repr, DecidableEq

/-- Store `insert` for a specialty `ActiveModel` (spec section 6): fails
atomically when the store has a pending failure; otherwise persists all
supplied field values verbatim, assigning the next auto-increment
identifier when the primary key is unset. -/
def Specialty.ActiveModel.insert (am : Specialty.ActiveModel) (db : Db) :
    Except DbErr (Specialty.Model × Db) :=
  match db.failure with
  | some e => .error e
  | none =>
    match am.uuid, am.name, am.description, am.is_active with
    | .set u, .set n, .set d, .set a =>
      let i : Int :=
        match am.id with
        | .set i => i
        | .notSet => db.nextSpecialtyId
      let m : Specialty.Model := ⟨i, u, n, d, a⟩
      .ok (m, { db with
                specialties := db.specialties ++ [m],
                nextSpecialtyId := if db.nextSpecialtyId ≤ i then i + 1 else db.nextSpecialtyId })
    | _, _, _, _ => .error ⟨"null value in column"⟩

/-- Store `insert` for a doctor `ActiveModel` (spec section 6). -/
def Doctor.ActiveModel.insert (am : Doctor.ActiveModel) (db : Db) :
    Except DbErr (Doctor.Model × Db) :=
  match db.failure with
  | some e => .error e
  | none =>
    match am.uuid, am.first_name, am.last_name, am.email, am.specialty_id,
          am.license_number, am.phone, am.is_active with
    | .set u, .set fn, .set ln, .set em, .set sid, .set lic, .set ph, .set a =>
      let i : Int :=
        match am.id with
        | .set i => i
        | .notSet => db.nextDoctorId
      let m : Doctor.Model := ⟨i, u, fn, ln, em, sid, lic, ph, a⟩
      .ok (m, { db with
                doctors := db.doctors ++ [m],
                nextDoctorId := if db.nextDoctorId ≤ i then i + 1 else db.nextDoctorId })
    | _, _, _, _, _, _, _, _ => .error ⟨"null value in column"⟩

/-- `create_specialty(db)`: the one-call creation function expanded from
`define_factory!(specialty)` — builds the `ActiveModel` from the static
defaults (`name`, `description`, `uuid = Uuid::new_v4()`, `is_active`),
leaves `id` to `..Default::default()`, and inserts it. -/
def create_specialty (rng : Rng) (db : Db) :
    Except DbErr Specialty.Model × Rng × Db :=
  let (u, rng1) := Uuid.new_v4 rng
  let am : Specialty.ActiveModel :=
    { id := .notSet
      uuid := .set u
      name := .set "Test Specialty"
      description := .set (some "Test Description")
      is_active := .set true }
  match am.insert db with
  | .ok (m, db1) => (.ok m, rng1, db1)
  | .error e => (.error e, rng1, db)

/-- The `CreateSpecialtyBuilder` struct: one concrete value per static
field (there are no lazy fields for this entity). -/
structure CreateSpecialtyBuilder where
  name : String
  description : Option String
  uuid : Uuid
  is_active : Bool
deriving Repr, DecidableEq

/-- `CreateSpecialtyBuilder::new()`: every static field initialized to its
default expression, which for `uuid` draws a fresh value. -/
def CreateSpecialtyBuilder.new (rng : Rng) : CreateSpecialtyBuilder × Rng :=
  let (u, rng1) := Uuid.new_v4 rng
  ({ name := "Test Specialty"
     description := some "Test Description"
     uuid := u
     is_active := true }, rng1)

/-- Fluent setter for `name` (named `name` in the source). -/
def CreateSpecialtyBuilder.set_name (b : CreateSpecialtyBuilder) (value : String) :
    CreateSpecialtyBuilder :=
  { b with name := value }

/-- Fluent setter for `description` (named `description` in the source). -/
def CreateSpecialtyBuilder.set_description (b : CreateSpecialtyBuilder)
    (value : Option String) : CreateSpecialtyBuilder :=
  { b with description := value }

/-- Fluent setter for `uuid` (named `uuid` in the source). -/
def CreateSpecialtyBuilder.set_uuid (b : CreateSpecialtyBuilder) (value : Uuid) :
    CreateSpecialtyBuilder :=
  { b with uuid := value }

/-- Fluent setter for `is_active` (named `is_active` in the source). -/
def CreateSpecialtyBuilder.set_is_active (b : CreateSpecialtyBuilder) (value : Bool) :
    CreateSpecialtyBuilder :=
  { b with is_active := value }

/-- `CreateSpecialtyBuilder::create(db)`: assemble the `ActiveModel` from
the builder's field values (`id` left to `..Default::default()`) and
insert it.  No lazy fields, so no resolver and no randomness is drawn. -/
def CreateSpecialtyBuilder.create (b : CreateSpecialtyBuilder) (db : Db) :
    Except DbErr Specialty.Model × Db :=
  let am : Specialty.ActiveModel :=
    { id := .notSet
      uuid := .set b.uuid
      name := .set b.name
      description := .set b.description
      is_active := .set b.is_active }
  match am.insert db with
  | .ok (m, db1) => (.ok m, db1)
  | .error e => (.error e, db)

/-- `CreateSpecialtyBuilder::build()`: assemble the `ActiveModel` without
saving.  This entity has no lazy fields, so no `expect` can fire. -/
def CreateSpecialtyBuilder.build (b : CreateSpecialtyBuilder) :
    Specialty.ActiveModel :=
  { id := .notSet
    uuid := .set b.uuid
    name := .set b.name
    description := .set b.description
    is_active := .set b.is_active }

/-- `create_specialty_builder()`: helper returning `CreateSpecialtyBuilder::new()`. -/
def create_specialty_builder (rng : Rng) : CreateSpecialtyBuilder × Rng :=
  CreateSpecialtyBuilder.new rng

/-- `get_specialty_id(db)`: `create_specialty(db).await.map(|s| s.id)`. -/
def get_specialty_id (rng : Rng) (db : Db) : Except DbErr Int × Rng × Db :=
  match create_specialty rng db with
  | (.ok m, rng1, db1) => (.ok m.id, rng1, db1)
  | (.error e, rng1, db1) => (.error e, rng1, db1)

/-- `format!("doctor_{}@example.com", Uuid::new_v4())`: the generated
default email, rendering the drawn uuid. -/
def emailFor (u : Uuid) : String :=
  "doctor_" ++ toString u ++ "@example.com"

/-- `format!("LIC{}", Uuid::new_v4().to_string()[..8].to_uppercase())`: the
generated default license number, from the first eight characters of the
drawn uuid's rendering, uppercased. -/
def licenseFor (u : Uuid) : String :=
  "LIC" ++ ((toString u).take 8).toUpper

/-- `create_doctor(db)`: the one-call creation function expanded from
`define_factory!(doctor)` — evaluates the static default expressions in
field-declaration order (`email`, `license_number` and `uuid` each draw a
fresh uuid), then resolves the lazy field `specialty_id` by awaiting
`get_specialty_id(db)` (the `?` aborts the whole call on its error), and
inserts the assembled `ActiveModel` (`id` left to `..Default::default()`). -/
def create_doctor (rng : Rng) (db : Db) :
    Except DbErr Doctor.Model × Rng × Db :=
  let (u1, rng1) := Uuid.new_v4 rng
  let (u2, rng2) := Uuid.new_v4 rng1
  let (u3, rng3) := Uuid.new_v4 rng2
  match get_specialty_id rng3 db with
  | (.error e, rng4, db1) => (.error e, rng4, db1)
  | (.ok sid, rng4, db1) =>
    let am : Doctor.ActiveModel :=
      { id := .notSet
        uuid := .set u3
        first_name := .set "John"
        last_name := .set "Doe"
        email := .set (emailFor u1)
        specialty_id := .set sid
        license_number := .set (licenseFor u2)
        phone := .set (some "+5511999999999")
        is_active := .set true }
    match am.insert db1 with
    | .ok (m, db2) => (.ok m, rng4, db2)
    | .error e => (.error e, rng4, db1)

/-- The `CreateDoctorBuilder` struct: one concrete value per static field
and an `Option` per lazy field (`specialty_id`). -/
structure CreateDoctorBuilder where
  first_name : String
  last_name : String
  email : String
  license_number : String
  uuid : Uuid
  phone : Option String
  is_active : Bool
  specialty_id : Option Int
deriving Repr, DecidableEq

/-- `CreateDoctorBuilder::new()`: every static field initialized to its
default expression (three fresh uuids drawn, in field order), every lazy
field initialized to `None`. -/
def CreateDoctorBuilder.new (rng : Rng) : CreateDoctorBuilder × Rng :=
  let (u1, rng1) := Uuid.new_v4 rng
  let (u2, rng2) := Uuid.new_v4 rng1
  let (u3, rng3) := Uuid.new_v4 rng2
  ({ first_name := "John"
     last_name := "Doe"
     email := emailFor u1
     license_number := licenseFor u2
     uuid := u3
     phone := some "+5511999999999"
     is_active := true
     specialty_id := none }, rng3)

/-- Fluent setter for `first_name` (named `first_name` in the source). -/
def CreateDoctorBuilder.set_first_name (b : CreateDoctorBuilder) (value : String) :
    CreateDoctorBuilder :=
  { b with first_name := value }

/-- Fluent setter for `last_name` (named `last_name` in the source). -/
def CreateDoctorBuilder.set_last_name (b : CreateDoctorBuilder) (value : String) :
    CreateDoctorBuilder :=
  { b with last_name := value }

/-- Fluent setter for `email` (named `email` in the source). -/
def CreateDoctorBuilder.set_email (b : CreateDoctorBuilder) (value : String) :
    CreateDoctorBuilder :=
  { b with email := value }

/-- Fluent setter for `license_number` (named `license_number` in the source). -/
def CreateDoctorBuilder.set_license_number (b : CreateDoctorBuilder) (value : String) :
    CreateDoctorBuilder :=
  { b with license_number := value }

/-- Fluent setter for `uuid` (named `uuid` in the source). -/
def CreateDoctorBuilder.set_uuid (b : CreateDoctorBuilder) (value : Uuid) :
    CreateDoctorBuilder :=
  { b with uuid := value }

/-- Fluent setter for `phone` (named `phone` in the source). -/
def CreateDoctorBuilder.set_phone (b : CreateDoctorBuilder) (value : Option String) :
    CreateDoctorBuilder :=
  { b with phone := value }

/-- Fluent setter for `is_active` (named `is_active` in the source). -/
def CreateDoctorBuilder.set_is_active (b : CreateDoctorBuilder) (value : Bool) :
    CreateDoctorBuilder :=
  { b with is_active := value }

/-- Fluent setter for the lazy field `specialty_id` (named `specialty_id`
in the source): stores `Some(value)`. -/
def CreateDoctorBuilder.set_specialty_id (b : CreateDoctorBuilder) (value : Int) :
    CreateDoctorBuilder :=
  { b with specialty_id := some value }

/-- `CreateDoctorBuilder::create(db)`: assemble the `ActiveModel` from the
builder's field values; the lazy `specialty_id` uses the stored override
when present and otherwise awaits `get_specialty_id(db)` (the `?` aborts
the whole call on its error); then insert. -/
def CreateDoctorBuilder.create (b : CreateDoctorBuilder) (rng : Rng) (db : Db) :
    Except DbErr Doctor.Model × Rng × Db :=
  match (match b.specialty_id with
         | some val => ((.ok val : Except DbErr Int), rng, db)
         | none => get_specialty_id rng db) with
  | (.error e, rng1, db1) => (.error e, rng1, db1)
  | (.ok sid, rng1, db1) =>
    let am : Doctor.ActiveModel :=
      { id := .notSet
        uuid := .set b.uuid
        first_name := .set b.first_name
        last_name := .set b.last_name
        email := .set b.email
        specialty_id := .set sid
        license_number := .set b.license_number
        phone := .set b.phone
        is_active := .set b.is_active }
    match am.insert db1 with
    | .ok (m, db2) => (.ok m, rng1, db2)
    | .error e => (.error e, rng1, db1)

/-- `CreateDoctorBuilder::build()`: assemble the `ActiveModel` without
saving; the `expect` on the lazy `specialty_id` panics when it is `None`,
modelled as the `none` result. -/
def CreateDoctorBuilder.build (b : CreateDoctorBuilder) :
    Option Doctor.ActiveModel :=
  match b.specialty_id with
  | none => none
  | some sid =>
    some
      { id := .notSet
        uuid := .set b.uuid
        first_name := .set b.first_name
        last_name := .set b.last_name
        email := .set b.email
        specialty_id := .set sid
        license_number := .set b.license_number
        phone := .set b.phone
        is_active := .set b.is_active }

/-- `create_doctor_builder()`: helper returning `CreateDoctorBuilder::new()`. -/
def create_doctor_builder (rng : Rng) : CreateDoctorBuilder × Rng :=
  CreateDoctorBuilder.new rng

/-- `get_doctor_id(db)`: `create_doctor(db).await.map(|s| s.id)`. -/
def get_doctor_id (rng : Rng) (db : Db) : Except DbErr Int × Rng × Db :=
  match create_doctor rng db with
  | (.ok m, rng1, db1) => (.ok m.id, rng1, db1)
  | (.error e, rng1, db1) => (.error e, rng1, db1)

/-- One public builder operation on `CreateDoctorBuilder`: the fluent
setters are the only operations that change a builder's state. -/
inductive DoctorOp where
  | op_first_name : String → DoctorOp
  | op_last_name : String → DoctorOp
  | op_email : String → DoctorOp
  | op_license_number : String → DoctorOp
  | op_uuid : Uuid → DoctorOp
  | op_phone : Option String → DoctorOp
  | op_is_active : Bool → DoctorOp
  | op_specialty_id : Int → DoctorOp
deriving Repr, DecidableEq

/-- Apply one fluent setter to a doctor builder. -/
def applyDoctorOp (b : CreateDoctorBuilder) : DoctorOp → CreateDoctorBuilder
  | .op_first_name v => b.set_first_name v
  | .op_last_name v => b.set_last_name v
  | .op_email v => b.set_email v
  | .op_license_number v => b.set_license_number v
  | .op_uuid v => b.set_uuid v
  | .op_phone v => b.set_phone v
  | .op_is_active v => b.set_is_active v
  | .op_specialty_id v => b.set_specialty_id v

/-- Apply a chain of fluent setters, left to right. -/
def applyDoctorOps (b : CreateDoctorBuilder) (ops : List DoctorOp) :
    CreateDoctorBuilder :=
  ops.foldl applyDoctorOp b

/-- A sample empty store that accepts inserts, as the test schema creates
it: no rows, auto-increment counters at 1. -/
def db0 : Db :=
  { specialties := [], doctors := [], nextSpecialtyId := 1, nextDoctorId := 1, failure := none }

/-- A sample store whose next inserts fail (connectivity lost). -/
def dbFail : Db :=
  { specialties := [], doctors := [], nextSpecialtyId := 1, nextDoctorId := 1,
    failure := some ⟨"connection closed"⟩ }

/-- Claim C1: for every field (Static or Lazy) and every caller-supplied
override value, a record produced via the builder's `create` or `build`
carries exactly the override value for that field, taking precedence over
the static default and the lazy resolver's result: each specialty static
field overridden on the builder appears verbatim in the built `ActiveModel`
and in the persisted record, and an overridden lazy `specialty_id` appears
verbatim in the built and persisted doctor record. -/
theorem override_precedence_wins (b : CreateSpecialtyBuilder) (d : CreateDoctorBuilder)
    (vn : String) (vd : Option String) (vu : Uuid) (va : Bool) (sid : Int)
    (rng : Rng) (db : Db) :
    ((b.set_name vn).build.name = .set vn) ∧
    ((b.set_description vd).build.description = .set vd) ∧
    ((b.set_uuid vu).build.uuid = .set vu) ∧
    ((b.set_is_active va).build.is_active = .set va) ∧
    (∀ m db1, (b.set_name vn).create db = (.ok m, db1) → m.name = vn) ∧
    (∀ m db1, (b.set_description vd).create db = (.ok m, db1) → m.description = vd) ∧
    (∀ m db1, (b.set_uuid vu).create db = (.ok m, db1) → m.uuid = vu) ∧
    (∀ m db1, (b.set_is_active va).create db = (.ok m, db1) → m.is_active = va) ∧
    (∀ am, (d.set_specialty_id sid).build = some am → am.specialty_id = .set sid) ∧
    (∀ m rng1 db1, (d.set_specialty_id sid).create rng db = (.ok m, rng1, db1) →
      m.specialty_id = sid) := by
  refine ⟨rfl, rfl, rfl, rfl, ?_, ?_, ?_, ?_, ?_, ?_⟩
  · intro m db1 h
    cases hf : db.failure with
    | some e =>
      simp [CreateSpecialtyBuilder.create, Specialty.ActiveModel.insert, hf] at h
    | none =>
      simp [CreateSpecialtyBuilder.create, Specialty.ActiveModel.insert, hf] at h
      obtain ⟨h1, -⟩ := h
      subst h1
      rfl
  · intro m db1 h
    cases hf : db.failure with
    | some e =>
      simp [CreateSpecialtyBuilder.create, Specialty.ActiveModel.insert, hf] at h
    | none =>
      simp [CreateSpecialtyBuilder.create, Specialty.ActiveModel.insert, hf] at h
      obtain ⟨h1, -⟩ := h
      subst h1
      rfl
  · intro m db1 h
    cases hf : db.failure with
    | some e =>
      simp [CreateSpecialtyBuilder.create, Specialty.ActiveModel.insert, hf] at h
    | none =>
      simp [CreateSpecialtyBuilder.create, Specialty.ActiveModel.insert, hf] at h
      obtain ⟨h1, -⟩ := h
      subst h1
      rfl
  · intro m db1 h
    cases hf : db.failure with
    | some e =>
      simp [CreateSpecialtyBuilder.create, Specialty.ActiveModel.insert, hf] at h
    | none =>
      simp [CreateSpecialtyBuilder.create, Specialty.ActiveModel.insert, hf] at h
      obtain ⟨h1, -⟩ := h
      subst h1
      rfl
  · intro am h
    simp [CreateDoctorBuilder.build, CreateDoctorBuilder.set_specialty_id] at h
    subst h
    rfl
  · intro m rng1 db1 h
    cases hf : db.failure with
    | some e =>
      simp [CreateDoctorBuilder.create, CreateDoctorBuilder.set_specialty_id,
        Doctor.ActiveModel.insert, hf] at h
    | none =>
      simp [CreateDoctorBuilder.create, CreateDoctorBuilder.set_specialty_id,
        Doctor.ActiveModel.insert, hf] at h
      obtain ⟨h1, -, -⟩ := h
      subst h1
      rfl

/-- Claim C1 witness: building with `name = "Cardiology"` on an empty store
yields a record whose `name` is exactly `"Cardiology"`, both through
`build` and through `create`. -/
theorem override_precedence_wins_witness :
    (((CreateSpecialtyBuilder.new ⟨0⟩).1.set_name "Cardiology").build.name
        = ActiveValue.set "Cardiology") ∧
    (⟨1, 0, "Cardiology", some "Test Description", true⟩ : Specialty.Model).name
        = "Cardiology" := by
  have h := override_precedence_wins (CreateSpecialtyBuilder.new ⟨0⟩).1
    (CreateDoctorBuilder.new ⟨0⟩).1 "Cardiology" (some "d") 7 false 42 ⟨0⟩ db0
  exact ⟨h.1, h.2.2.2.2.1 ⟨1, 0, "Cardiology", some "Test Description", true⟩
    ⟨[⟨1, 0, "Cardiology", some "Test Description", true⟩], [], 2, 1, none⟩ rfl⟩

/-- Claim C2: `build()` fails fatally (the modelled panic, `none`) exactly
when at least one lazy field is unset on the builder; when every lazy field
holds a caller-supplied value, `build()` succeeds — its type takes no store
argument at all, so it cannot contact the Store — and the result's field
values exactly match the supplied overrides and static defaults held by
the builder, with the primary key left unset. -/
theorem build_lazy_contract (d : CreateDoctorBuilder) :
    (d.build = none ↔ d.specialty_id = none) ∧
    (∀ v, d.specialty_id = some v →
      d.build = some
        ⟨.notSet, .set d.uuid, .set d.first_name, .set d.last_name, .set d.email,
          .set v, .set d.license_number, .set d.phone, .set d.is_active⟩) := by
  constructor
  · cases h : d.specialty_id <;> simp [CreateDoctorBuilder.build, h]
  · intro v h
    simp [CreateDoctorBuilder.build, h]

/-- Claim C2 witness: a fresh doctor builder has its lazy field unset, so
`build()` fails fatally; after supplying `specialty_id = 7` it succeeds
with exactly the overrides and static defaults. -/
theorem build_lazy_contract_witness :
    (CreateDoctorBuilder.new ⟨0⟩).1.build = none ∧
    ((CreateDoctorBuilder.new ⟨0⟩).1.set_specialty_id 7).build = some
      ⟨.notSet, .set 2, .set "John", .set "Doe", .set (emailFor 0),
        .set 7, .set (licenseFor 1), .set (some "+5511999999999"), .set true⟩ := by
  refine ⟨(build_lazy_contract (CreateDoctorBuilder.new ⟨0⟩).1).1.mpr rfl, ?_⟩
  exact (build_lazy_contract ((CreateDoctorBuilder.new ⟨0⟩).1.set_specialty_id 7)).2 7 rfl

/-- Claim C3: for each entity and every store and generator state, the
one-call creation function equals constructing a builder with no overrides
and calling `create` on it: both resolve the same field values, consume
the same randomness, issue the same single insert, and return the same
`Result`. -/
theorem one_call_equals_default_builder_create (rng : Rng) (db : Db) :
    (create_specialty rng db =
      (((CreateSpecialtyBuilder.new rng).1.create db).1,
       (CreateSpecialtyBuilder.new rng).2,
       ((CreateSpecialtyBuilder.new rng).1.create db).2)) ∧
    (create_doctor rng db =
      (CreateDoctorBuilder.new rng).1.create (CreateDoctorBuilder.new rng).2 db) := by
  constructor
  · simp only [create_specialty, CreateSpecialtyBuilder.new, CreateSpecialtyBuilder.create,
      Uuid.new_v4]
    cases h : Specialty.ActiveModel.insert
        ⟨ActiveValue.notSet, ActiveValue.set rng.counter, ActiveValue.set "Test Specialty",
          ActiveValue.set (some "Test Description"), ActiveValue.set true⟩ db with
    | error e => simp [h]
    | ok p => obtain ⟨m, db1⟩ := p; simp [h]
  · simp only [create_doctor, CreateDoctorBuilder.new, CreateDoctorBuilder.create, Uuid.new_v4]

/-- Claim C4: if the lazy field's resolver fails during a builder `create`
with no override, or during the one-call `create_doctor`, the whole
operation aborts with that same error: the returned store state is exactly
the input store (no doctor insert was issued, nothing was partially
persisted — zero inserts took effect). -/
theorem resolver_failure_aborts_create (d : CreateDoctorBuilder) (rng : Rng) (db : Db)
    (e : DbErr) (hlazy : d.specialty_id = none) (hf : db.failure = some e) :
    ((d.create rng db).1 = .error e ∧ (d.create rng db).2.2 = db) ∧
    ((create_doctor rng db).1 = .error e ∧ (create_doctor rng db).2.2 = db) := by
  constructor
  · simp [CreateDoctorBuilder.create, hlazy, get_specialty_id, create_specialty,
      Specialty.ActiveModel.insert, hf]
  · simp [create_doctor, get_specialty_id, create_specialty,
      Specialty.ActiveModel.insert, hf]

/-- Claim C4 witness: on a store whose inserts fail, the one-call doctor
creation and the override-free builder `create` abort with the store's
error and leave the store untouched. -/
theorem resolver_failure_aborts_create_witness :
    (CreateDoctorBuilder.new ⟨0⟩).1.specialty_id = none ∧
    dbFail.failure = some ⟨"connection closed"⟩ ∧
    (((CreateDoctorBuilder.new ⟨0⟩).1.create ⟨3⟩ dbFail).1 = .error ⟨"connection closed"⟩ ∧
      ((CreateDoctorBuilder.new ⟨0⟩).1.create ⟨3⟩ dbFail).2.2 = dbFail) ∧
    ((create_doctor ⟨3⟩ dbFail).1 = .error ⟨"connection closed"⟩ ∧
      (create_doctor ⟨3⟩ dbFail).2.2 = dbFail) := by
  have h := resolver_failure_aborts_create (CreateDoctorBuilder.new ⟨0⟩).1 ⟨3⟩ dbFail
    ⟨"connection closed"⟩ rfl rfl
  exact ⟨rfl, rfl, h.1, h.2⟩

/-- Claim C5: when the caller supplied an override for the lazy field,
`create` never invokes the resolver: no randomness is consumed and the
specialties table is untouched by any resolver side effect (the only store
change is the doctor insert itself), and the persisted record carries the
override.  When no override was supplied (and the store is healthy), the
resolver does run: it creates the default specialty row and consumes one
fresh uuid. -/
theorem lazy_override_short_circuits_resolver (d : CreateDoctorBuilder) (rng : Rng) (db : Db) :
    (∀ v, d.specialty_id = some v →
      (d.create rng db).2.1 = rng ∧
      (d.create rng db).2.2.specialties = db.specialties ∧
      ∀ m rng1 db1, d.create rng db = (.ok m, rng1, db1) → m.specialty_id = v) ∧
    (d.specialty_id = none → db.failure = none →
      (d.create rng db).2.2.specialties =
        db.specialties ++ [⟨db.nextSpecialtyId, rng.counter, "Test Specialty",
          some "Test Description", true⟩] ∧
      (d.create rng db).2.1 = ⟨rng.counter + 1⟩) := by
  constructor
  · intro v hv
    refine ⟨?_, ?_, ?_⟩
    · cases hf : db.failure <;>
        simp [CreateDoctorBuilder.create, hv, Doctor.ActiveModel.insert, hf]
    · cases hf : db.failure <;>
        simp [CreateDoctorBuilder.create, hv, Doctor.ActiveModel.insert, hf]
    · intro m rng1 db1 h
      cases hf : db.failure with
      | some e =>
        simp [CreateDoctorBuilder.create, hv, Doctor.ActiveModel.insert, hf] at h
      | none =>
        simp [CreateDoctorBuilder.create, hv, Doctor.ActiveModel.insert, hf] at h
        obtain ⟨h1, -, -⟩ := h
        subst h1
        rfl
  · intro hv hf
    simp [CreateDoctorBuilder.create, hv, get_specialty_id, create_specialty,
      Specialty.ActiveModel.insert, Doctor.ActiveModel.insert, Uuid.new_v4, hf]

/-- Claim C5 witness: with `specialty_id = 42` supplied, `create` on the
empty store leaves the generator and the specialties table untouched and
persists `specialty_id = 42`; with no override it creates one default
specialty row and consumes one uuid. -/
theorem lazy_override_short_circuits_resolver_witness :
    (((CreateDoctorBuilder.new ⟨0⟩).1.set_specialty_id 42).create ⟨3⟩ db0).2.1 = ⟨3⟩ ∧
    (((CreateDoctorBuilder.new ⟨0⟩).1.set_specialty_id 42).create ⟨3⟩ db0).2.2.specialties
      = [] ∧
    (⟨1, 2, "John", "Doe", emailFor 0, 42, licenseFor 1, some "+5511999999999", true⟩ :
        Doctor.Model).specialty_id = 42 ∧
    ((CreateDoctorBuilder.new ⟨0⟩).1.create ⟨3⟩ db0).2.2.specialties =
      [⟨1, 3, "Test Specialty", some "Test Description", true⟩] ∧
    ((CreateDoctorBuilder.new ⟨0⟩).1.create ⟨3⟩ db0).2.1 = ⟨4⟩ := by
  have hA := (lazy_override_short_circuits_resolver
    ((CreateDoctorBuilder.new ⟨0⟩).1.set_specialty_id 42) ⟨3⟩ db0).1 42 rfl
  have hB := (lazy_override_short_circuits_resolver
    (CreateDoctorBuilder.new ⟨0⟩).1 ⟨3⟩ db0).2 rfl rfl
  exact ⟨hA.1, hA.2.1, hA.2.2
      ⟨1, 2, "John", "Doe", emailFor 0, 42, licenseFor 1, some "+5511999999999", true⟩
      ⟨3⟩ ⟨[], [⟨1, 2, "John", "Doe", emailFor 0, 42, licenseFor 1,
        some "+5511999999999", true⟩], 1, 2, none⟩ rfl,
    hB.1, hB.2⟩

/-- Claim C6: two successive one-call specialty creations with no overrides
against a store that accepts inserts (the second running on the store state
the first left behind) produce records identical in every static field
value (`name`, `description`, `is_active`) and differing exactly in the
unique-per-call fields: the store-assigned `id` and the generated `uuid`. -/
theorem successive_creates_determinism (rng : Rng) (db : Db) (hf : db.failure = none) :
    ∀ m1 rng1 db1 m2 rng2 db2,
      create_specialty rng db = (.ok m1, rng1, db1) →
      create_specialty rng1 db1 = (.ok m2, rng2, db2) →
      m1.name = m2.name ∧ m1.description = m2.description ∧
      m1.is_active = m2.is_active ∧ m1.id ≠ m2.id ∧ m1.uuid ≠ m2.uuid := by
  intro m1 rng1 db1 m2 rng2 db2 h1 h2
  simp [create_specialty, Specialty.ActiveModel.insert, Uuid.new_v4, hf] at h1
  obtain ⟨hm1, hrng1, hdb1⟩ := h1
  subst hm1 hrng1 hdb1
  simp [create_specialty, Specialty.ActiveModel.insert, Uuid.new_v4, hf] at h2
  obtain ⟨hm2, -, -⟩ := h2
  subst hm2
  refine ⟨rfl, rfl, rfl, by simp, by simp⟩

/-- Claim C6 witness: two successive one-call creations on the empty store
agree on every static field and differ in `id` and `uuid`. -/
theorem successive_creates_determinism_witness :
    (⟨1, 0, "Test Specialty", some "Test Description", true⟩ : Specialty.Model).name
        = (⟨2, 1, "Test Specialty", some "Test Description", true⟩ : Specialty.Model).name ∧
    (1 : Int) ≠ (2 : Int) ∧ (0 : Uuid) ≠ (1 : Uuid) := by
  have h := successive_creates_determinism ⟨0⟩ db0 rfl
    ⟨1, 0, "Test Specialty", some "Test Description", true⟩ ⟨1⟩
    ⟨[⟨1, 0, "Test Specialty", some "Test Description", true⟩], [], 2, 1, none⟩
    ⟨2, 1, "Test Specialty", some "Test Description", true⟩ ⟨2⟩
    ⟨[⟨1, 0, "Test Specialty", some "Test Description", true⟩,
      ⟨2, 1, "Test Specialty", some "Test Description", true⟩], [], 3, 1, none⟩
    rfl rfl
  exact ⟨h.1, h.2.2.2.1, h.2.2.2.2⟩

/-- Claim C7: the builder constructors return a builder in which every
static field holds that field's concretized default value (for the
generated defaults, the value drawn from the generator at construction
time) and every lazy field is unset, and the `create_<entity>_builder`
helpers are exactly `new`. -/
theorem new_builder_defaults (rng : Rng) :
    create_specialty_builder rng = CreateSpecialtyBuilder.new rng ∧
    (CreateSpecialtyBuilder.new rng).1 =
      ⟨"Test Specialty", some "Test Description", (Uuid.new_v4 rng).1, true⟩ ∧
    create_doctor_builder rng = CreateDoctorBuilder.new rng ∧
    (CreateDoctorBuilder.new rng).1 =
      ⟨"John", "Doe", emailFor rng.counter, licenseFor (rng.counter + 1),
        rng.counter + 2, some "+5511999999999", true, none⟩ ∧
    (CreateDoctorBuilder.new rng).1.specialty_id = none := by
  exact ⟨rfl, rfl, rfl, rfl, rfl⟩

/-- Claim C8: for every store and generator state, `get_specialty_id` is
exactly the one-call creation followed by extracting the persisted
identifier: it returns `Ok(id)` with the same resulting states whenever
`create_specialty` succeeds with a record of identifier `id`, and
propagates the identical error and states otherwise. -/
theorem get_id_refines_create (rng : Rng) (db : Db) :
    (∀ m rng1 db1, create_specialty rng db = (.ok m, rng1, db1) →
      get_specialty_id rng db = (.ok m.id, rng1, db1)) ∧
    (∀ e rng1 db1, create_specialty rng db = (.error e, rng1, db1) →
      get_specialty_id rng db = (.error e, rng1, db1)) := by
  constructor
  · intro m rng1 db1 h
    simp [get_specialty_id, h]
  · intro e rng1 db1 h
    simp [get_specialty_id, h]

/-- Claim C8 witness: on the empty store `get_specialty_id` returns the
identifier the one-call creation persisted, and on a failing store it
propagates the same error and states. -/
theorem get_id_refines_create_witness :
    get_specialty_id ⟨0⟩ db0 = (.ok 1, ⟨1⟩,
      ⟨[⟨1, 0, "Test Specialty", some "Test Description", true⟩], [], 2, 1, none⟩) ∧
    get_specialty_id ⟨0⟩ dbFail = (.error ⟨"connection closed"⟩, ⟨1⟩, dbFail) := by
  constructor
  · exact (get_id_refines_create ⟨0⟩ db0).1
      ⟨1, 0, "Test Specialty", some "Test Description", true⟩ ⟨1⟩
      ⟨[⟨1, 0, "Test Specialty", some "Test Description", true⟩], [], 2, 1, none⟩ rfl
  · exact (get_id_refines_create ⟨0⟩ dbFail).2 ⟨"connection closed"⟩ ⟨1⟩ dbFail rfl

/-- Claim C9: on every construction path the factory never populates the
primary-key field `id`: the `ActiveModel` assembled by `build` leaves `id`
unset, and every record persisted by the one-call creations or the
builders' `create` carries the store-assigned identifier (the store's
auto-increment counter at insert time). -/
theorem id_never_populated_by_factory (b : CreateSpecialtyBuilder) (d : CreateDoctorBuilder)
    (rng : Rng) (db : Db) :
    (b.build.id = .notSet) ∧
    (∀ am, d.build = some am → am.id = .notSet) ∧
    (∀ m rng1 db1, create_specialty rng db = (.ok m, rng1, db1) →
      m.id = db.nextSpecialtyId) ∧
    (∀ m db1, b.create db = (.ok m, db1) → m.id = db.nextSpecialtyId) ∧
    (∀ m rng1 db1, create_doctor rng db = (.ok m, rng1, db1) → m.id = db.nextDoctorId) ∧
    (∀ m rng1 db1, d.create rng db = (.ok m, rng1, db1) → m.id = db.nextDoctorId) := by
  refine ⟨rfl, ?_, ?_, ?_, ?_, ?_⟩
  · intro am h
    cases hs : d.specialty_id with
    | none => simp [CreateDoctorBuilder.build, hs] at h
    | some v =>
      simp [CreateDoctorBuilder.build, hs] at h
      subst h
      rfl
  · intro m rng1 db1 h
    cases hf : db.failure with
    | some e => simp [create_specialty, Specialty.ActiveModel.insert, hf] at h
    | none =>
      simp [create_specialty, Specialty.ActiveModel.insert, Uuid.new_v4, hf] at h
      obtain ⟨hm, -, -⟩ := h
      subst hm
      rfl
  · intro m db1 h
    cases hf : db.failure with
    | some e => simp [CreateSpecialtyBuilder.create, Specialty.ActiveModel.insert, hf] at h
    | none =>
      simp [CreateSpecialtyBuilder.create, Specialty.ActiveModel.insert, hf] at h
      obtain ⟨hm, -⟩ := h
      subst hm
      rfl
  · intro m rng1 db1 h
    cases hf : db.failure with
    | some e =>
      simp [create_doctor, get_specialty_id, create_specialty,
        Specialty.ActiveModel.insert, hf] at h
    | none =>
      simp [create_doctor, get_specialty_id, create_specialty,
        Specialty.ActiveModel.insert, Doctor.ActiveModel.insert, Uuid.new_v4, hf] at h
      obtain ⟨hm, -, -⟩ := h
      subst hm
      rfl
  · intro m rng1 db1 h
    cases hs : d.specialty_id with
    | some v =>
      cases hf : db.failure with
      | some e =>
        simp [CreateDoctorBuilder.create, hs, Doctor.ActiveModel.insert, hf] at h
      | none =>
        simp [CreateDoctorBuilder.create, hs, Doctor.ActiveModel.insert, hf] at h
        obtain ⟨hm, -, -⟩ := h
        subst hm
        rfl
    | none =>
      cases hf : db.failure with
      | some e =>
        simp [CreateDoctorBuilder.create, hs, get_specialty_id, create_specialty,
          Specialty.ActiveModel.insert, hf] at h
      | none =>
        simp [CreateDoctorBuilder.create, hs, get_specialty_id, create_specialty,
          Specialty.ActiveModel.insert, Doctor.ActiveModel.insert, Uuid.new_v4, hf] at h
        obtain ⟨hm, -, -⟩ := h
        subst hm
        rfl

/-- Claim C9 witness: a built specialty `ActiveModel` leaves `id` unset,
and the record the one-call creation persists on the empty store carries
the store's counter value `1` as its identifier. -/
theorem id_never_populated_by_factory_witness :
    (CreateSpecialtyBuilder.new ⟨0⟩).1.build.id = ActiveValue.notSet ∧
    (⟨1, 0, "Test Specialty", some "Test Description", true⟩ : Specialty.Model).id
      = db0.nextSpecialtyId := by
  have h := id_never_populated_by_factory (CreateSpecialtyBuilder.new ⟨0⟩).1
    (CreateDoctorBuilder.new ⟨0⟩).1 ⟨0⟩ db0
  exact ⟨h.1, h.2.2.1 ⟨1, 0, "Test Specialty", some "Test Description", true⟩ ⟨1⟩
    ⟨[⟨1, 0, "Test Specialty", some "Test Description", true⟩], [], 2, 1, none⟩ rfl⟩

/-- Applying any single fluent setter keeps an already-set lazy
`specialty_id` set: no public operation resets a lazy field to unset. -/
theorem applyDoctorOp_keeps_specialty_id (b : CreateDoctorBuilder) (op : DoctorOp)
    (h : b.specialty_id.isSome) : (applyDoctorOp b op).specialty_id.isSome := by
  cases op <;>
    simp_all [applyDoctorOp, CreateDoctorBuilder.set_first_name,
      CreateDoctorBuilder.set_last_name, CreateDoctorBuilder.set_email,
      CreateDoctorBuilder.set_license_number, CreateDoctorBuilder.set_uuid,
      CreateDoctorBuilder.set_phone, CreateDoctorBuilder.set_is_active,
      CreateDoctorBuilder.set_specialty_id]

/-- Applying any chain of fluent setters keeps an already-set lazy
`specialty_id` set. -/
theorem applyDoctorOps_keeps_specialty_id (ops : List DoctorOp) (b : CreateDoctorBuilder)
    (h : b.specialty_id.isSome) : (applyDoctorOps b ops).specialty_id.isSome := by
  induction ops generalizing b with
  | nil => exact h
  | cons op tl ih => exact ih (applyDoctorOp b op) (applyDoctorOp_keeps_specialty_id b op h)

/-- Claim C10: for every builder on which the lazy-field setter
`specialty_id` has been called at least once — any chain of public fluent
setter operations containing it, applied to any starting builder —
`build()` never reaches its fatal-error branch: the setter stores
`Some(value)`, no operation resets the lazy field to unset, so the
`expect` on the lazy field's `Option` is unreachable. -/
theorem build_safe_when_lazy_set (b : CreateDoctorBuilder) (ops : List DoctorOp)
    (h : ∃ v, DoctorOp.op_specialty_id v ∈ ops) :
    ((applyDoctorOps b ops).build).isSome := by
  have key : (applyDoctorOps b ops).specialty_id.isSome := by
    obtain ⟨v, hv⟩ := h
    induction ops generalizing b with
    | nil => simp at hv
    | cons op tl ih =>
      rcases List.mem_cons.mp hv with heq | hmem
      · subst heq
        exact applyDoctorOps_keeps_specialty_id tl _ (by
          simp [applyDoctorOp, CreateDoctorBuilder.set_specialty_id])
      · exact ih (applyDoctorOp b op) hmem
  obtain ⟨v, hv⟩ := Option.isSome_iff_exists.mp key
  simp [CreateDoctorBuilder.build, hv]

/-- Claim C10 witness: a fresh doctor builder put through a setter chain
that includes the lazy setter builds successfully. -/
theorem build_safe_when_lazy_set_witness :
    ((applyDoctorOps (CreateDoctorBuilder.new ⟨0⟩).1
        [DoctorOp.op_specialty_id 5, DoctorOp.op_is_active false]).build).isSome := by
  exact build_safe_when_lazy_set (CreateDoctorBuilder.new ⟨0⟩).1
    [DoctorOp.op_specialty_id 5, DoctorOp.op_is_active false] ⟨5, by simp⟩
